import Mathlib

/-!
Verification development for the MONAI `atmostonce` deferred geometric-transform
composition engine.

Shallow embedding of:
- `monai/transforms/atmostonce/apply.py`  (extents_from_shape, metadata_is_compatible,
  starting_matrix_and_extents, prepare_args_dict_for_apply, apply)
- `monai/transforms/atmostonce/array.py`  (Rotate.__call__, Flip.__call__ wrappers)
- `monai/transforms/atmostonce/utility.py` (CachedTransform, MultiSampleTransform)

Numeric backend: matrices and vectors are modelled over `ℚ` as `List (List ℚ)` /
`List ℚ`, with the same row-by-column product as numpy's `@` operator.  Components
of the repository that are not under `src/` (the `MatrixFactory` from
`monai.utils.mapping_stack`, the external `Affine` resampler, the op builders in
`monai.transforms.atmostonce.functional`, and the `MetaTensor` pending-queue
methods) are modelled from the spec and marked as such.
-/

namespace AMO

abbrev Vec := List ℚ

abbrev Mat := List (List ℚ)

/-- Pointwise sum of two vectors (numpy broadcasting not needed: all rows of a
matrix have equal length here). -/
def vAdd (u v : Vec) : Vec := List.zipWith (· + ·) u v

/-- Scalar multiple of a vector. -/
def sMul (c : ℚ) (v : Vec) : Vec := v.map (fun x => c * x)

/-- Row-vector-times-matrix product `v @ A` (numpy semantics for a 1-d array on
the left of `@`): the j-th component is `Σ_i v_i * A_i_j`. -/
def vecMul (v : Vec) (A : Mat) : Vec :=
  (List.zipWith sMul v A).foldr vAdd (List.replicate (A.headD []).length 0)

/-- Matrix product `A @ B` (numpy semantics): row i of the result is
`(row i of A) @ B`. -/
def matMul (A B : Mat) : Mat := A.map (fun r => vecMul r B)

/-- Modelled from the spec: `MatrixFactory.identity` from
`monai.utils.mapping_stack` (not under `src/`); §4.1: a `(d+1)×(d+1)` identity
affine matrix for `d` spatial dimensions. -/
def MatrixFactory.identity (d : ℕ) : Mat :=
  (List.range (d + 1)).map (fun i =>
    (List.range (d + 1)).map (fun j => if i = j then (1 : ℚ) else 0))

/-- Modelled from the spec: `MatrixFactory.translate` from
`monai.utils.mapping_stack` (not under `src/`); §4.1: a `(d+1)×(d+1)`
homogeneous translation matrix (column convention, matching the composition
order `later @ earlier` used by `apply`). -/
def MatrixFactory.translate (v : Vec) : Mat :=
  ((List.range v.length).map (fun i =>
    ((List.range v.length).map (fun j => if i = j then (1 : ℚ) else 0)) ++ [v.getD i 0]))
  ++ [List.replicate v.length 0 ++ [1]]

/-- The per-entry resampling metadata, `apply.py` reads the keys
`mode`, `padding_mode`, `device`, `dtype` (lines 127-130) and the wrappers read
`shape_override`; an absent dict key is `none`.  Field values are abstracted to
`ℕ` codes (the source compares them only with `==`). -/
structure Metadata where
  mode : Option ℕ := none
  padding_mode : Option ℕ := none
  device : Option ℕ := none
  dtype : Option ℕ := none
  shape_override : Option (List ℚ) := none
deriving DecidableEq

/-- One pending-queue entry: a matrix increment plus its metadata
(`MetaMatrix` from `monai.utils.mapping_stack`; the wrapper layers
`.matrix.matrix` around the raw array are flattened into `Mat`). -/
structure MetaMatrix where
  matrix : Mat
  metadata : Metadata
deriving DecidableEq

/-- An image entity: array shape (leading channel axis included), the pending
transform queue, and an opaque tag standing for the pixel payload. -/
structure MetaImage where
  shape : List ℚ
  pending_transforms : List MetaMatrix
  content : ℕ
deriving DecidableEq

/-- Modelled from the spec: `MetaTensor.push_pending_transform` (§4.2/§6, not
under `src/`): append an entry to the image's queue. -/
def pushPending (img : MetaImage) (mm : MetaMatrix) : MetaImage :=
  { img with pending_transforms := img.pending_transforms ++ [mm] }

/-- Modelled from the spec: `MetaTensor.clear_pending_transforms` (§4.2/§6, not
under `src/`): empty the queue. -/
def clearPending (img : MetaImage) : MetaImage :=
  { img with pending_transforms := [] }

/-- Modelled from the spec: `MetaTensor.peek_pending_transform().metadata.get("shape_override")`
(§4.2 `peek_last` reads the last entry without removing it; not under `src/`). -/
def peekShapeOverride (img : MetaImage) : Option (List ℚ) :=
  match img.pending_transforms.getLast? with
  | none => none
  | some mm => mm.metadata.shape_override

/-- `extents_from_shape` (apply.py lines 25-29): the itertools-product of
`[0, shape[i]]` over the axes after the leading one, with a homogeneous `1`
appended to each corner.  `itProduct` reproduces `itertools.product` (first
factor varies slowest). -/
def itProduct {α : Type} : List (List α) → List (List α)
  | [] => [[]]
  | l :: ls => l.flatMap (fun x => (itProduct ls).map (fun e => x :: e))

/-- `extents_from_shape` from apply.py. -/
def extents_from_shape (shape : List ℚ) : List Vec :=
  (itProduct ((shape.drop 1).map (fun s => [0, s]))).map (fun e => e ++ [1])

/-- `metadata_is_compatible` (apply.py lines 57-63). -/
def metadata_is_compatible (value_1 value_2 : Option ℕ) : Bool :=
  match value_1 with
  | none => true
  | some v1 =>
    match value_2 with
    | none => true
    | some v2 => v1 == v2

/-- `starting_matrix_and_extents` (apply.py lines 66-75): centroid-seeded
identity matrix and the image corners translated likewise (the source computes
`e @ translate_to_centre` with `e` a row vector on the left). -/
def starting_matrix_and_extents (data : MetaImage) : Mat × List Vec :=
  let dim_count := data.shape.length - 1
  let cumulative_matrix := MatrixFactory.identity dim_count
  let cumulative_extents := extents_from_shape data.shape
  let translate_to_centre := MatrixFactory.translate ((data.shape.drop 1).map (fun d => d / 2))
  (matMul translate_to_centre cumulative_matrix,
   cumulative_extents.map (fun e => vecMul e translate_to_centre))

/-- `prepare_args_dict_for_apply` (apply.py lines 78-89): the kwargs dict holding
exactly the non-`None` current parameters. -/
def prepare_args_dict_for_apply (cur_mode cur_padding_mode cur_device cur_dtype : Option ℕ) :
    Metadata :=
  { mode := cur_mode, padding_mode := cur_padding_mode,
    device := cur_device, dtype := cur_dtype, shape_override := none }

/-- One recorded invocation of the external resampler (`Affine(... affine=matrix)`
applied to the running image, apply.py lines 152-155 and 166-170). -/
structure ResampleCall where
  matrix : Mat
  kwargs : Metadata
deriving DecidableEq

/-- Modelled from the spec: the external resampler collaborator (§6):
`resample(data, matrix, mode?, padding_mode?, device?, dtype?) → data'`.  Its
numerics are out of the spec's scope, so `apply` is parametrised over it. -/
abbrev Resampler := MetaImage → Mat → Metadata → MetaImage

/-- Modelled from the spec: a concrete resampler instance used for witnesses;
it performs one interpolation pass (abstracted to bumping the payload tag). -/
def specResample : Resampler :=
  fun img _ _ => { shape := img.shape, pending_transforms := img.pending_transforms,
                   content := img.content + 1 }

/-- The Python exceptions `apply` can raise: `len(None)` at line 97
(`TypeError`) and the read of the never-assigned local `kwargs` at line 166
(`UnboundLocalError`). -/
inductive PyError where
  | typeError
  | unboundLocalError
deriving DecidableEq

/-- The loop-carried state of `apply` (lines 113-160): running image, cumulative
matrix and extents, the four `cur_*` parameters, the `kwargs` local (`none` =
not yet assigned), and the trace of resampler invocations made so far. -/
structure LoopState where
  data : MetaImage
  cumulative_matrix : Mat
  cumulative_extents : List Vec
  cur_mode : Option ℕ
  cur_padding_mode : Option ℕ
  cur_device : Option ℕ
  cur_dtype : Option ℕ
  kwargs : Option Metadata
  calls : List ResampleCall
deriving DecidableEq

/-- One iteration of the `for meta_matrix in pending_` loop (apply.py lines
121-160).  The cumulative matrix and extents are advanced first (lines 122-125),
then the four per-field compatibility tests run (lines 127-138); on
incompatibility an intermediate resample is performed with the just-composed
cumulative matrix and the previous `cur_*` parameters, and the `cur_*`
parameters are replaced by the entry's metadata (lines 150-160).  On the
compatible path nothing besides matrix and extents changes. -/
def applyStep (resample : Resampler) (s : LoopState) (meta_matrix : MetaMatrix) : LoopState :=
  if metadata_is_compatible s.cur_mode meta_matrix.metadata.mode = false
     ∨ metadata_is_compatible s.cur_padding_mode meta_matrix.metadata.padding_mode = false
     ∨ metadata_is_compatible s.cur_device meta_matrix.metadata.device = false
     ∨ metadata_is_compatible s.cur_dtype meta_matrix.metadata.dtype = false then
    { data := resample s.data (matMul meta_matrix.matrix s.cumulative_matrix)
        (prepare_args_dict_for_apply s.cur_mode s.cur_padding_mode s.cur_device s.cur_dtype)
      cumulative_matrix := matMul meta_matrix.matrix s.cumulative_matrix
      cumulative_extents := s.cumulative_extents.map
        (fun e => vecMul e (matMul meta_matrix.matrix s.cumulative_matrix))
      cur_mode := meta_matrix.metadata.mode
      cur_padding_mode := meta_matrix.metadata.padding_mode
      cur_device := meta_matrix.metadata.device
      cur_dtype := meta_matrix.metadata.dtype
      kwargs := some (prepare_args_dict_for_apply s.cur_mode s.cur_padding_mode
        s.cur_device s.cur_dtype)
      calls := s.calls ++ [⟨matMul meta_matrix.matrix s.cumulative_matrix,
        prepare_args_dict_for_apply s.cur_mode s.cur_padding_mode s.cur_device s.cur_dtype⟩] }
  else
    { s with
      cumulative_matrix := matMul meta_matrix.matrix s.cumulative_matrix
      cumulative_extents := s.cumulative_extents.map
        (fun e => vecMul e (matMul meta_matrix.matrix s.cumulative_matrix)) }

/-- The loop state just before the first iteration (apply.py lines 113-119). -/
def initState (data : MetaImage) : LoopState :=
  { data := data
    cumulative_matrix := (starting_matrix_and_extents data).1
    cumulative_extents := (starting_matrix_and_extents data).2
    cur_mode := none
    cur_padding_mode := none
    cur_device := none
    cur_dtype := none
    kwargs := none
    calls := [] }

/-- The whole per-entry loop of `apply`, folded over `pending_ =
data.pending_transforms` (line 95 overrides the `pending` argument). -/
def applyFold (resample : Resampler) (data : MetaImage) : LoopState :=
  data.pending_transforms.foldl (applyStep resample) (initState data)

/-- `apply` (apply.py lines 92-172).  Faithful points: the emptiness guard at
line 97 tests the `pending` ARGUMENT (default `None`, so `len(pending)` raises
`TypeError`), while the loop iterates `pending_ = data.pending_transforms`; the
final `Affine` at line 166 reads the local `kwargs`, which is assigned only
inside the incompatibility branch, raising `UnboundLocalError` when that branch
never ran; on success the final resample runs, the queue is cleared in place,
and the function falls off the end, returning Python `None` (modelled as
`Option.none` in the `.ok` payload).  The second component is the trace of
resampler invocations performed before returning or raising. -/
def apply (resample : Resampler) (data : MetaImage)
    (pending : Option (List MetaMatrix)) :
    Except PyError (Option MetaImage) × List ResampleCall :=
  match pending with
  | none => (.error .typeError, [])
  | some p =>
    if p.length = 0 then (.ok (some data), [])
    else
      let s := applyFold resample data
      match s.kwargs with
      | none => (.error .unboundLocalError, s.calls)
      | some kw =>
        let data2 := resample s.data s.cumulative_matrix kw
        let _ := clearPending data2
        (.ok none, s.calls ++ [⟨s.cumulative_matrix, kw⟩])

/-- The extents propagation the loop actually performs: at each step the
PREVIOUS step's extents are multiplied by the freshly composed cumulative
matrix (apply.py line 125 maps `e @ cumulative_matrix` over
`cumulative_extents`, the already-transformed corners). -/
def chainExtents (es : List Vec) (c : Mat) : List Mat → List Vec
  | [] => es
  | m :: ms => chainExtents (es.map (fun e => vecMul e (matMul m c))) (matMul m c) ms

/-- Key loop invariant: starting from a state whose four `cur_*` fields are all
unset, every entry is judged compatible (`metadata_is_compatible none _ =
true`), so the fold never takes the incompatibility branch: the `cur_*` fields
stay unset, `kwargs` is never assigned, no resampler call is made, the image is
untouched, the cumulative matrix composes every increment in order, and the
extents are re-mapped by each fresh cumulative matrix. -/
lemma foldl_applyStep_unset (resample : Resampler) :
    ∀ (l : List MetaMatrix) (s : LoopState),
      s.cur_mode = none → s.cur_padding_mode = none →
      s.cur_device = none → s.cur_dtype = none →
      l.foldl (applyStep resample) s =
        { data := s.data
          cumulative_matrix :=
            (l.map MetaMatrix.matrix).foldl (fun c m => matMul m c) s.cumulative_matrix
          cumulative_extents :=
            chainExtents s.cumulative_extents s.cumulative_matrix (l.map MetaMatrix.matrix)
          cur_mode := none
          cur_padding_mode := none
          cur_device := none
          cur_dtype := none
          kwargs := s.kwargs
          calls := s.calls } := by
  intro l
  induction l with
  | nil =>
    intro s h1 h2 h3 h4
    obtain ⟨d, cm, ce, m0, p0, dv0, dt0, kw, cs⟩ := s
    simp only at h1 h2 h3 h4
    subst h1 h2 h3 h4
    rfl
  | cons mm rest ih =>
    intro s h1 h2 h3 h4
    have hc1 : metadata_is_compatible s.cur_mode mm.metadata.mode = true := by
      rw [h1]; rfl
    have hc2 : metadata_is_compatible s.cur_padding_mode mm.metadata.padding_mode = true := by
      rw [h2]; rfl
    have hc3 : metadata_is_compatible s.cur_device mm.metadata.device = true := by
      rw [h3]; rfl
    have hc4 : metadata_is_compatible s.cur_dtype mm.metadata.dtype = true := by
      rw [h4]; rfl
    have hstep : applyStep resample s mm =
        { s with
          cumulative_matrix := matMul mm.matrix s.cumulative_matrix
          cumulative_extents := s.cumulative_extents.map
            (fun e => vecMul e (matMul mm.matrix s.cumulative_matrix)) } := by
      unfold applyStep
      rw [hc1, hc2, hc3, hc4]
      simp
    rw [List.foldl_cons, hstep]
    exact ih _ h1 h2 h3 h4

/-- A 1-spatial-dimension queue entry with identity increment and empty metadata. -/
def exEntryId : MetaMatrix := { matrix := MatrixFactory.identity 1, metadata := {} }

/-- A 1-spatial-dimension queue entry with identity increment and a set `mode`. -/
def exEntryMode (m : ℕ) : MetaMatrix :=
  { matrix := MatrixFactory.identity 1, metadata := { mode := some m } }

/-- A channel-plus-one-spatial-axis image with an empty pending queue. -/
def exImgPlain : MetaImage := { shape := [1, 2], pending_transforms := [], content := 0 }

/-- Image whose queue holds one spec-level incompatibility boundary: two
entries whose set `mode` values differ (`0` then `1`), so the spec expects
`k + 1 = 2` resample calls. -/
def exImgC1 : MetaImage :=
  { shape := [1, 2], pending_transforms := [exEntryMode 0, exEntryMode 1], content := 0 }

/-- Image with two identity-increment, empty-metadata entries, used to compare
the loop's extents against the recompute-from-original-corners reading. -/
def exImgC2 : MetaImage :=
  { shape := [1, 2], pending_transforms := [exEntryId, exEntryId], content := 0 }

/-- Image whose second entry's set `mode` (`7`) conflicts with the first
entry's set `mode` (`5`): a metadata-incompatibility boundary in the spec's
sense. -/
def exImgC3 : MetaImage :=
  { shape := [1, 2], pending_transforms := [exEntryMode 5, exEntryMode 7], content := 0 }

/-- Image with a single compatible entry carrying a set `mode` (`5`): per the
spec the accumulated `mode` should be filled from it. -/
def exImgC6 : MetaImage :=
  { shape := [1, 2], pending_transforms := [exEntryMode 5], content := 0 }

/-- C1: the claim says a queue with k metadata-incompatibility boundaries
yields exactly k+1 resampler invocations (one for k = 0).  In the code the
accumulated `cur_*` parameters are never set on the compatible path, so the
incompatibility branch — the only place `kwargs` is assigned and the only
intermediate resample — is unreachable: `apply` performs ZERO resampler
invocations on every input, and on any non-empty queue it raises
`UnboundLocalError` at the final `Affine` construction instead of resampling.
The concrete conjuncts evaluate the k = 1 example `exImgC1` (spec: 2 calls;
code: error, no calls). -/
theorem apply_resampler_never_invoked :
    (∀ (resample : Resampler) (data : MetaImage) (pending : Option (List MetaMatrix)),
      (AMO.apply resample data pending).2 = [])
    ∧ (AMO.apply specResample exImgC1 (some exImgC1.pending_transforms)).1
        = .error .unboundLocalError
    ∧ (AMO.apply specResample exImgC1 (some exImgC1.pending_transforms)).2 = [] := by
  refine ⟨?_, rfl, rfl⟩
  intro resample data pending
  cases pending with
  | none => rfl
  | some p =>
    by_cases hp : p.length = 0
    · simp [AMO.apply, hp]
    · have hfold := foldl_applyStep_unset resample data.pending_transforms (initState data)
        rfl rfl rfl rfl
      simp only [AMO.apply, applyFold]
      rw [if_neg hp, hfold]
      rfl

/-- C2 counterexample: on `exImgC2` (shape `[1,2]`, two identity-increment
entries) the loop's final cumulative extents are NOT the original corner set
`extents_from_shape` transformed by the final cumulative matrix: the code gets
`[[0,1],[2,7]]` (the centroid translation re-applied at every step to the
already-transformed corners) while the claimed recomputation gives
`[[0,1],[2,3]]`. -/
theorem extents_not_recomputed_from_original_corners :
    ¬ ((applyFold specResample exImgC2).cumulative_extents =
        (extents_from_shape exImgC2.shape).map
          (fun e => vecMul e (applyFold specResample exImgC2).cumulative_matrix)) := by
  norm_num [applyFold, initState, applyStep, starting_matrix_and_extents, extents_from_shape,
    itProduct, MatrixFactory.identity, MatrixFactory.translate, matMul, vecMul, vAdd, sMul,
    metadata_is_compatible, exImgC2, exEntryId, List.range_succ, prepare_args_dict_for_apply,
    List.zipWith_cons_cons, List.replicate_succ]

/-- C2 amended: after each queue entry the cumulative extents equal the
PREVIOUS step's extents (starting from the centroid-translated corners) each
multiplied, as row vectors, by the freshly composed cumulative matrix
(`chainExtents`), so every earlier transform — the centroid pre-translation
included — is re-applied to already-transformed corners at each step; the
extents are not recomputed from the original corners. -/
theorem extents_propagate_from_previous_extents :
    ∀ (resample : Resampler) (data : MetaImage),
      (applyFold resample data).cumulative_extents =
        chainExtents (starting_matrix_and_extents data).2 (starting_matrix_and_extents data).1
          (data.pending_transforms.map MetaMatrix.matrix) := by
  intro resample data
  rw [applyFold,
    foldl_applyStep_unset resample data.pending_transforms (initState data) rfl rfl rfl rfl]
  rfl

/-- C3 counterexample: `exImgC3`'s second entry is genuinely incompatible with
the metadata accumulated by then in the spec's sense (`mode` 5 against `mode`
7, both set and unequal), yet `apply` performs no resampler invocation at all —
in particular none carrying the cumulative matrix accumulated before that
entry — because the code's accumulated `cur_mode` is still unset when the
entry is examined. -/
theorem no_flush_at_incompatibility_boundary :
    metadata_is_compatible (some 5) (some 7) = false
    ∧ (AMO.apply specResample exImgC3 (some exImgC3.pending_transforms)).2 = []
    ∧ (AMO.apply specResample exImgC3 (some exImgC3.pending_transforms)).1
        = .error .unboundLocalError := ⟨rfl, rfl, rfl⟩

/-- C3 amended: `apply` never reaches a flush boundary: since compatible
entries never fill the accumulated metadata, the four `cur_*` fields stay unset
through the whole loop, every entry is judged compatible, no intermediate
resample happens, the image is never materialized inside the loop, the entry
metadata is never adopted, and the cumulative matrix is never reset — it
accumulates every entry's increment in one uninterrupted segment. -/
theorem apply_loop_no_intermediate_resample_no_reset :
    ∀ (resample : Resampler) (data : MetaImage),
      (applyFold resample data).calls = []
      ∧ (applyFold resample data).kwargs = none
      ∧ (applyFold resample data).cur_mode = none
      ∧ (applyFold resample data).cur_padding_mode = none
      ∧ (applyFold resample data).cur_device = none
      ∧ (applyFold resample data).cur_dtype = none
      ∧ (applyFold resample data).data = data
      ∧ (applyFold resample data).cumulative_matrix =
          (data.pending_transforms.map MetaMatrix.matrix).foldl (fun c m => matMul m c)
            (starting_matrix_and_extents data).1 := by
  intro resample data
  rw [applyFold,
    foldl_applyStep_unset resample data.pending_transforms (initState data) rfl rfl rfl rfl]
  exact ⟨rfl, rfl, rfl, rfl, rfl, rfl, rfl, rfl⟩

/-- C5: the claim says an image with an empty pending queue is returned
unchanged with zero resampler invocations.  The code's emptiness guard reads
the `pending` ARGUMENT (default `None`) instead of `pending_ =
data.pending_transforms`, so the plain call `apply(img)` raises `TypeError`
(`len(None)`) even for an empty queue. -/
theorem apply_empty_queue_raises_type_error :
    ∀ (resample : Resampler) (data : MetaImage),
      data.pending_transforms = [] →
      AMO.apply resample data none = (.error .typeError, []) := by
  intro resample data _
  rfl

/-- C5 witness: the failure evaluated on a concrete empty-queue image. -/
theorem apply_empty_queue_raises_type_error_witness :
    AMO.apply specResample exImgPlain none = (.error .typeError, []) :=
  apply_empty_queue_raises_type_error specResample exImgPlain rfl

/-- C6: the per-field acceptance test matches the claim (unset accepted
against anything, two set values only when equal) — first conjunct — but the
merge half fails: after `apply` processes the compatible entry of `exImgC6`
(set `mode := 5` against the all-unset accumulated state) the accumulated
`cur_mode` is still unset instead of being filled from the entry. -/
theorem metadata_compat_correct_but_merge_missing :
    (∀ v1 v2 : Option ℕ,
      metadata_is_compatible v1 v2 = true ↔ (v1 = none ∨ v2 = none ∨ v1 = v2))
    ∧ (applyFold specResample exImgC6).cur_mode = none
    ∧ (applyFold specResample exImgC6).cur_padding_mode = none
    ∧ (applyFold specResample exImgC6).cur_device = none
    ∧ (applyFold specResample exImgC6).cur_dtype = none := by
  refine ⟨?_, rfl, rfl, rfl, rfl⟩
  intro v1 v2
  cases v1 <;> cases v2 <;> simp [metadata_is_compatible]

/-- C6 witness: the acceptance test applied at two equal set values. -/
theorem metadata_compat_correct_but_merge_missing_witness :
    metadata_is_compatible (some 3) (some 3) = true :=
  (metadata_compat_correct_but_merge_missing.1 (some 3) (some 3)).mpr (Or.inr (Or.inr rfl))

/-- Modelled from the spec: the `rotate` op builder from
`monai.transforms.atmostonce.functional` (not under `src/`); §4.3: a pure
function of the image and parameters returning `(img_t, matrix increment,
metadata)`.  `Rotate.__call__` is parametrised over it. -/
abbrev RotateOp :=
  MetaImage → ℚ → Bool → Option ℕ → Option ℕ → Bool → Option ℕ → Option (List ℚ) →
    MetaImage × Mat × Metadata

/-- Modelled from the spec: the `flip` op builder from
`monai.transforms.atmostonce.functional` (not under `src/`). -/
abbrev FlipOp :=
  MetaImage → Option ℕ → Option (List ℚ) → MetaImage × Mat × Metadata

/-- The `Rotate` wrapper's construction-time state (array.py lines 170-188).
The enum-valued defaults (`GridSampleMode.BILINEAR`, …) are set values,
modelled as `some` of an abstract code. -/
structure RotateT where
  angle : ℚ
  keep_size : Bool := true
  mode : Option ℕ := some 0
  padding_mode : Option ℕ := some 0
  align_corners : Bool := false
  dtype : Option ℕ := some 0
  lazy_evaluation : Bool := false
deriving DecidableEq

/-- Line 199 of array.py: `angle = self.angle` — the call-time angle is
unconditionally discarded in favour of the construction-time default. -/
def RotateT.resolve_angle (r : RotateT) (_angle : Option ℚ) : ℚ := r.angle

/-- Lines 200-202 of array.py: `mode = mode or self.mode` — Python truthiness:
a supplied (`some`) value wins, otherwise the stored default. -/
def RotateT.resolve_opt (_r : RotateT) (stored : Option ℕ) (call : Option ℕ) : Option ℕ :=
  match call with
  | some v => some v
  | none => stored

/-- Line 202 of array.py for the boolean: `align_corners or self.align_corners`
— `False` is falsy, so only a call-time `True` overrides. -/
def RotateT.resolve_align (r : RotateT) (call : Option Bool) : Bool :=
  match call with
  | some true => true
  | _ => r.align_corners

/-- Lines 206-208 of array.py: fall back to the shape-override hint in the
queue's last entry when none is supplied and the queue is non-empty. -/
def resolveShapeOverride (img : MetaImage) (shape_override : Option (List ℚ)) :
    Option (List ℚ) :=
  match shape_override with
  | some s => some s
  | none => if img.pending_transforms = [] then none else peekShapeOverride img

/-- `Rotate.__call__` (array.py lines 190-218): resolve parameters, run the op
builder, push the entry, and — when not configured for deferred evaluation —
assign `img_t = apply(img_t)` (apply.py is invoked with its default
`pending=None`) and return `img_t`. -/
def RotateT.callM (rotateF : RotateOp) (resample : Resampler) (r : RotateT)
    (img : MetaImage) (angle : Option ℚ) (mode : Option ℕ) (padding_mode : Option ℕ)
    (align_corners : Option Bool) (shape_override : Option (List ℚ)) :
    Except PyError (Option MetaImage) :=
  let angle_ := r.resolve_angle angle
  let mode_ := r.resolve_opt r.mode mode
  let padding_mode_ := r.resolve_opt r.padding_mode padding_mode
  let align_corners_ := r.resolve_align align_corners
  let shape_override_ := resolveShapeOverride img shape_override
  let t := rotateF img angle_ r.keep_size mode_ padding_mode_ align_corners_ r.dtype
    shape_override_
  let img_t := pushPending t.1 ⟨t.2.1, t.2.2⟩
  if r.lazy_evaluation = false then
    match AMO.apply resample img_t none with
    | (.error e, _) => .error e
    | (.ok v, _) => .ok v
  else .ok (some img_t)

/-- The `Flip` wrapper's construction-time state (array.py lines 86-94). -/
structure FlipT where
  spatial_axis : Option ℕ := none
  lazy_evaluation : Bool := true
deriving DecidableEq

/-- Line 102 of array.py: `spatial_axis_ = self.spatial_axis = spatial_axis` —
the chained assignment stores the call-time value (even `None`) into the
object, clobbering the construction-time default, and uses that call-time
value; the first component is the value used, the second the mutated object. -/
def FlipT.resolve_axis (f : FlipT) (spatial_axis : Option ℕ) : Option ℕ × FlipT :=
  (spatial_axis, { f with spatial_axis := spatial_axis })

/-- `Flip.__call__` (array.py lines 96-115): returns the mutated `self`
alongside the result. -/
def FlipT.callM (flipF : FlipOp) (resample : Resampler) (f : FlipT)
    (img : MetaImage) (spatial_axis : Option ℕ) (shape_override : Option (List ℚ)) :
    FlipT × Except PyError (Option MetaImage) :=
  let r := f.resolve_axis spatial_axis
  let shape_override_ := resolveShapeOverride img shape_override
  let t := flipF img r.1 shape_override_
  let img_t := pushPending t.1 ⟨t.2.1, t.2.2⟩
  (r.2,
    if f.lazy_evaluation = false then
      match AMO.apply resample img_t none with
      | (.error e, _) => .error e
      | (.ok v, _) => .ok v
    else .ok (some img_t))

/-- An op builder that records the angle it was handed in the pushed matrix
(`[[angle]]`) and its resolved optional parameters in the metadata. -/
def exRotateOp : RotateOp :=
  fun img a _ m p _ dt so =>
    (img, [[a]], { mode := m, padding_mode := p, dtype := dt, shape_override := so })

/-- A `Rotate` configured for eager evaluation with default angle 1. -/
def exRotateEager : RotateT := { angle := 1, lazy_evaluation := false }

/-- A `Rotate` configured for deferred evaluation with default angle 1. -/
def exRotateLazy : RotateT := { angle := 1, lazy_evaluation := true }

/-- C4: the claim says an eagerly configured op returns the same output as the
deferred op followed by `apply` on the single-entry queue.  In the code the
eager path's `apply(img_t)` call leaves `apply`'s `pending` parameter at its
default `None`, so `len(pending)` raises `TypeError` before any resampling:
the eager call produces no output at all, for every op builder, resampler,
configuration and input (and the explicit `apply` call of the deferred+flush
path fails the same way, so neither path ever yields the materialized image). -/
theorem eager_rotate_raises_type_error :
    ∀ (rotateF : RotateOp) (resample : Resampler) (r : RotateT) (img : MetaImage)
      (a : Option ℚ) (m p : Option ℕ) (ac : Option Bool) (so : Option (List ℚ)),
      r.lazy_evaluation = false →
      RotateT.callM rotateF resample r img a m p ac so = .error .typeError := by
  intro rotateF resample r img a m p ac so h
  simp only [RotateT.callM, h]
  rfl

/-- C4 witness: the eager failure evaluated at a concrete op builder,
resampler, transform and image. -/
theorem eager_rotate_raises_type_error_witness :
    RotateT.callM exRotateOp specResample exRotateEager exImgPlain none none none none none
      = .error .typeError :=
  eager_rotate_raises_type_error exRotateOp specResample exRotateEager exImgPlain
    none none none none none rfl

/-- C7: parameter resolution in the cited wrappers contradicts the claim.
For `Rotate`, the call-time angle is always discarded (`angle = self.angle`):
first conjunct for every transform and call, second conjunct concretely — a
`Rotate` built with angle 1 and called with angle 2 hands angle 1 to the op
builder (the recorded matrix is `[[1]]`, not `[[2]]`).  For `Flip`, a call
without `spatial_axis` does not fall back to the stored default: it uses
`none` AND overwrites the stored default with `none` (third conjunct for every
flip configuration and call; fourth conjunct concretely for a `Flip` built
with `spatial_axis := some 0`). -/
theorem rotate_angle_and_flip_axis_resolution_bug :
    (∀ (r : RotateT) (a : Option ℚ), r.resolve_angle a = r.angle)
    ∧ RotateT.callM exRotateOp specResample exRotateLazy exImgPlain (some 2) none none none none
        = .ok (some (pushPending exImgPlain
            ⟨[[1]], { mode := some 0, padding_mode := some 0, dtype := some 0 }⟩))
    ∧ (∀ (f : FlipT) (flipF : FlipOp) (resample : Resampler) (img : MetaImage)
        (so : Option (List ℚ)),
        (FlipT.callM flipF resample f img none so).1.spatial_axis = none)
    ∧ (FlipT.resolve_axis { spatial_axis := some 0, lazy_evaluation := true } none).1 = none
    ∧ (FlipT.resolve_axis { spatial_axis := some 0, lazy_evaluation := true } none).2.spatial_axis
        = none := by
  exact ⟨fun r a => rfl, rfl, fun f flipF resample img so => rfl, rfl, rfl⟩

/-- The `CacheMechanism` interface (utility.py lines 8-27), state-passing:
`try_fetch` returns the `(is_present, value)` pair, `store` the updated cache
state. -/
structure CacheMechanism (K V S : Type) where
  try_fetch : S → K → Bool × V
  store : S → K → V → S

/-- `CachedTransform` (utility.py lines 30-50): the wrapped transforms pipeline
plus a cache. -/
structure CachedTransform (K V S A : Type) where
  transforms : A → V
  cache : CacheMechanism K V S

/-- `CachedTransform.__call__` (utility.py lines 52-66): returns the produced
value, the cache state after the call, and the trace of arguments the wrapped
`transforms` was invoked on. -/
def CachedTransform.callM {K V S A : Type} (c : CachedTransform K V S A)
    (s : S) (key : K) (args : A) : V × S × List A :=
  let fetched := c.cache.try_fetch s key
  if fetched.1 then (fetched.2, s, [])
  else
    let result := c.transforms args
    (result, c.cache.store s key result, [args])

/-- C10: on a hit (`try_fetch` reports present) the cached value is returned,
the cache state is unchanged and the wrapped transforms are not invoked; on a
miss the transforms are invoked exactly once with the given arguments, the
result is stored under the key, and that result is returned. -/
theorem cached_transform_spec :
    ∀ (K V S A : Type) (c : CachedTransform K V S A) (s : S) (key : K) (args : A),
      ((c.cache.try_fetch s key).1 = true →
        c.callM s key args = ((c.cache.try_fetch s key).2, s, []))
      ∧ ((c.cache.try_fetch s key).1 = false →
        c.callM s key args =
          (c.transforms args, c.cache.store s key (c.transforms args), [args])) := by
  intro K V S A c s key args
  constructor
  · intro h
    simp [CachedTransform.callM, h]
  · intro h
    simp [CachedTransform.callM, h]

/-- An association-list cache over natural numbers. -/
def exCacheMech : CacheMechanism ℕ ℕ (List (ℕ × ℕ)) :=
  { try_fetch := fun s k =>
      match s.find? (fun p => p.1 == k) with
      | some p => (true, p.2)
      | none => (false, 0)
    store := fun s k v => (k, v) :: s }

/-- A cached transform computing `a + 100` over the association-list cache. -/
def exCached : CachedTransform ℕ ℕ (List (ℕ × ℕ)) ℕ :=
  { transforms := fun a => a + 100, cache := exCacheMech }

/-- C10 witness: both branches evaluated concretely — a hit on key 1 returns
the cached 42 without storing, a miss computes 107, stores it and returns it. -/
theorem cached_transform_spec_witness :
    CachedTransform.callM exCached [(1, 42)] 1 7 = (42, [(1, 42)], [])
    ∧ CachedTransform.callM exCached [] 1 7 = (107, [(1, 107)], [7]) := by
  exact ⟨(cached_transform_spec ℕ ℕ (List (ℕ × ℕ)) ℕ exCached [(1, 42)] 1 7).1 rfl,
    (cached_transform_spec ℕ ℕ (List (ℕ × ℕ)) ℕ exCached [] 1 7).2 rfl⟩

/-- `MultiSampleTransform` (utility.py lines 69-81): a generator producing
sub-samples and the downstream transforms pipeline.  Both are modelled as
list-returning (the source's per-element `isinstance` test appends a Tensor or
extends with a list; the generator yields a sequence, which always takes the
list branch). -/
structure MultiSampleTransform (α : Type) where
  multi_sample : α → List α
  transforms : α → List α

/-- `MultiSampleTransform.__call__` (utility.py lines 83-99): for each
sub-sample `mt` of `multi_sample(t)` the code computes `mt_out =
self.multi_sample(mt)` — NOT `self.transforms(mt)` — and gathers the results.
The second component is the trace of arguments `transforms` was invoked on
(empty: `transforms` is never consulted). -/
def MultiSampleTransform.callM {α : Type} (m : MultiSampleTransform α) (t : α) :
    List α × List α :=
  (((m.multi_sample t).map m.multi_sample).flatten, [])

/-- What the spec (and the class's own docstring and error message) prescribe:
apply the downstream `transforms` to each yielded sub-sample and concatenate
in yield order. -/
def MultiSampleTransform.specCall {α : Type} (m : MultiSampleTransform α) (t : α) :
    List α :=
  ((m.multi_sample t).map m.transforms).flatten

/-- A generator yielding the single sub-sample `x + 1` with a downstream
pipeline producing `[10 * x]`. -/
def exMST : MultiSampleTransform ℤ :=
  { multi_sample := fun x => [x + 1], transforms := fun x => [10 * x] }

/-- C8: the claim says the downstream transforms pipeline is applied to each
yielded sub-sample.  The code instead applies the GENERATOR a second time to
each sub-sample and never invokes `transforms` (first conjunct, for every
transform and input); concretely on `exMST` at input 0 the code returns `[2]`
(`multi_sample` twice) with an empty `transforms` trace, while the prescribed
behaviour returns `[10]`. -/
theorem multi_sample_applies_generator_not_transforms :
    (∀ (α : Type) (m : MultiSampleTransform α) (t : α), (m.callM t).2 = [])
    ∧ MultiSampleTransform.callM exMST 0 = ([2], [])
    ∧ MultiSampleTransform.specCall exMST 0 = [10] := by
  refine ⟨fun α m t => rfl, ?_, ?_⟩ <;> decide

/-- Length of the itertools-style product: the product of the factor lengths. -/
lemma itProduct_length {α : Type} : ∀ (ls : List (List α)),
    (itProduct ls).length = (ls.map List.length).prod := by
  intro ls
  induction ls with
  | nil => rfl
  | cons l ls ih =>
    have hfun : (List.length ∘ fun x : α => List.map (fun e => x :: e) (itProduct ls))
        = fun _ => (List.map List.length ls).prod := by
      funext x
      simp [List.length_map, ih]
    simp [itProduct, hfun, List.map_const', List.sum_replicate, smul_eq_mul]

/-- Membership in the itertools-style product: exactly the lists choosing one
element from each factor, in order. -/
lemma mem_itProduct {α : Type} : ∀ (ls : List (List α)) (x : List α),
    x ∈ itProduct ls ↔ List.Forall₂ (fun a l => a ∈ l) x ls := by
  intro ls
  induction ls with
  | nil =>
    intro x
    simp [itProduct, List.forall₂_nil_right_iff]
  | cons l ls ih =>
    intro x
    simp only [itProduct, List.mem_flatMap, List.mem_map, ih, List.forall₂_cons_right_iff]
    constructor
    · rintro ⟨a, ha, y, hy, rfl⟩
      exact ⟨a, y, ha, hy, rfl⟩
    · rintro ⟨a, y, ha, hy, rfl⟩
      exact ⟨a, ha, y, hy, rfl⟩

/-- C9: `extents_from_shape` returns the `2^d` homogeneous spatial corners:
the cited example evaluates as claimed (first conjunct, in itertools order);
for every shape the result has `2^(len-1)` members (second conjunct; the
leading axis is skipped); and an entry is exactly a per-axis choice of `0` or
`shape[i+1]` with `1` appended (third conjunct). -/
theorem extents_from_shape_spec :
    extents_from_shape [1, 24, 32] = [[0, 0, 1], [0, 32, 1], [24, 0, 1], [24, 32, 1]]
    ∧ (∀ shape : List ℚ, (extents_from_shape shape).length = 2 ^ (shape.length - 1))
    ∧ (∀ (shape : List ℚ) (e : List ℚ),
        e ∈ extents_from_shape shape ↔
          ∃ c, List.Forall₂ (fun x s => x = 0 ∨ x = s) c (shape.drop 1) ∧ e = c ++ [1]) := by
  refine ⟨rfl, ?_, ?_⟩
  · intro shape
    rw [extents_from_shape, List.length_map, itProduct_length, List.map_map]
    rw [show (List.length ∘ fun s : ℚ => [0, s]) = fun _ => 2 from rfl]
    rw [List.map_const', List.prod_replicate, List.length_drop]
  · intro shape e
    simp only [extents_from_shape, List.mem_map, mem_itProduct, List.forall₂_map_right_iff]
    constructor
    · rintro ⟨c, h1, rfl⟩
      exact ⟨c, h1.imp (fun ha => by simpa using ha), rfl⟩
    · rintro ⟨c, h1, rfl⟩
      exact ⟨c, h1.imp (fun ha => by simpa using ha), rfl⟩

/-- C9 witness: the characterisation applied at a concrete corner of the
cited example shape. -/
theorem extents_from_shape_spec_witness :
    [24, 0, 1] ∈ extents_from_shape [1, 24, 32] :=
  (extents_from_shape_spec.2.2 [1, 24, 32] [24, 0, 1]).mpr
    ⟨[24, 0],
      List.Forall₂.cons (Or.inr rfl) (List.Forall₂.cons (Or.inl rfl) List.Forall₂.nil), rfl⟩

end AMO
